import Mathlib

/-!
Verification of the storage resilience layer of the custom_gateway backend:
the tier manager (`app/db/db_manager.py`), the in-memory Tertiary adapter
(`app/db/inmemory.py`) and the SQLite Secondary adapter (`app/db/sqlite_db.py`).

The Python code is shallowly embedded: dictionaries become insertion-ordered
association lists (matching CPython dict semantics), Python objects seen by the
adapters become `Obj` records (class name, optional integer id, named fields),
and every operation of the session contract becomes a pure Lean function that
mirrors the source control flow branch by branch.
-/

set_option autoImplicit false

namespace CustomGateway

/-- A Python attribute value as manipulated by the db layer: `None`, a bool,
an int, or a string.  Nested structures (dict/list JSON columns) are not
needed by the properties verified here. -/
inductive Value where
  | vNone
  | vBool (b : Bool)
  | vInt (n : Int)
  | vStr (s : String)
deriving DecidableEq

/-- Python truthiness (`if value:`) on the embedded values. -/
def Value.truthy : Value → Bool
  | .vNone => false
  | .vBool b => b
  | .vInt n => n != 0
  | .vStr s => s != ""

/-- A Python object as the adapters see it: its class name (`type(obj).__name__`),
its optional integer id, and its remaining named attributes.  The source treats
"no `id` attribute" and "`id is None`" identically (`not hasattr(obj, 'id') or
obj.id is None`), so both are `none` here. -/
structure Obj where
  typeName : String
  id : Option Nat
  fields : List (String × Value)
deriving DecidableEq

/-- `hasattr(obj, f)` for a non-id attribute. -/
def hasattrB (o : Obj) (f : String) : Bool :=
  (o.fields.lookup f).isSome

/-- `getattr(obj, f)` for a non-id attribute, `none` when absent. -/
def getattrD (o : Obj) (f : String) : Option Value :=
  o.fields.lookup f

/-- Does the character list `p` occur as a prefix of `l`. -/
def charsStartWith : List Char → List Char → Bool
  | [], _ => true
  | _ :: _, [] => false
  | c :: cs, d :: ds => c == d && charsStartWith cs ds

/-- Does the character list `p` occur contiguously inside `l`. -/
def charsContain (p : List Char) : List Char → Bool
  | [] => charsStartWith p []
  | c :: cs => charsStartWith p (c :: cs) || charsContain p cs

/-- Python's `needle in hay` on strings. -/
def substrOf (needle hay : String) : Bool :=
  charsContain needle.toList hay.toList

/-- A CPython dict keyed by int: an association list in insertion order.
Assigning to an existing key keeps its position; a new key is appended. -/
def dictSet (d : List (Nat × Obj)) (k : Nat) (v : Obj) : List (Nat × Obj) :=
  if (d.lookup k).isSome then
    d.map (fun p => if p.1 = k then (k, v) else p)
  else
    d ++ [(k, v)]

/-- `dict.values()` in insertion order. -/
def dictValues (d : List (Nat × Obj)) : List Obj :=
  d.map Prod.snd

/-- State of `InMemoryDB` (app/db/inmemory.py): one dict per entity type plus
one id counter per type, all counters starting at 1. -/
structure InMemoryDB where
  apis : List (Nat × Obj)
  users : List (Nat × Obj)
  refreshTokens : List (Nat × Obj)
  otps : List (Nat × Obj)
  roles : List (Nat × Obj)
  permissions : List (Nat × Obj)
  userRoles : List (Nat × Obj)
  nextApiId : Nat
  nextUserId : Nat
  nextTokenId : Nat
  nextOtpId : Nat
  nextRoleId : Nat
  nextPermissionId : Nat
  nextUserRoleId : Nat
deriving DecidableEq

/-- `InMemoryDB.__init__`: empty storage, every counter at 1. -/
def InMemoryDB.init : InMemoryDB :=
  { apis := [], users := [], refreshTokens := [], otps := [], roles := []
    permissions := [], userRoles := []
    nextApiId := 1, nextUserId := 1, nextTokenId := 1, nextOtpId := 1
    nextRoleId := 1, nextPermissionId := 1, nextUserRoleId := 1 }

/-- `InMemoryDB.add` (inmemory.py lines 251-293).  The object is dispatched on
substring tests against its class name, in source order: `'User'`, `'OTP'`,
`'RefreshToken'`, `'Role'`, `'Permission'`, `'UserRole'`.  An object with no id
gets the type's counter value and the counter is bumped; otherwise it is stored
under its existing id.  Note that because `'User'` is tested first and is a
substring of `'UserRole'`, the final `'UserRole'` branch is unreachable. -/
def InMemoryDB.add (db : InMemoryDB) (obj : Obj) : InMemoryDB :=
  let tn := obj.typeName
  if substrOf "User" tn then
    match obj.id with
    | none =>
        let o := { obj with id := some db.nextUserId }
        { db with users := dictSet db.users db.nextUserId o
                  nextUserId := db.nextUserId + 1 }
    | some i => { db with users := dictSet db.users i obj }
  else if substrOf "OTP" tn then
    match obj.id with
    | none =>
        let o := { obj with id := some db.nextOtpId }
        { db with otps := dictSet db.otps db.nextOtpId o
                  nextOtpId := db.nextOtpId + 1 }
    | some i => { db with otps := dictSet db.otps i obj }
  else if substrOf "RefreshToken" tn then
    match obj.id with
    | none =>
        let o := { obj with id := some db.nextTokenId }
        { db with refreshTokens := dictSet db.refreshTokens db.nextTokenId o
                  nextTokenId := db.nextTokenId + 1 }
    | some i => { db with refreshTokens := dictSet db.refreshTokens i obj }
  else if substrOf "Role" tn then
    match obj.id with
    | none =>
        let o := { obj with id := some db.nextRoleId }
        { db with roles := dictSet db.roles db.nextRoleId o
                  nextRoleId := db.nextRoleId + 1 }
    | some i => { db with roles := dictSet db.roles i obj }
  else if substrOf "Permission" tn then
    match obj.id with
    | none =>
        let o := { obj with id := some db.nextPermissionId }
        { db with permissions := dictSet db.permissions db.nextPermissionId o
                  nextPermissionId := db.nextPermissionId + 1 }
    | some i => { db with permissions := dictSet db.permissions i obj }
  else if substrOf "UserRole" tn then
    match obj.id with
    | none =>
        let o := { obj with id := some db.nextUserRoleId }
        { db with userRoles := dictSet db.userRoles db.nextUserRoleId o
                  nextUserRoleId := db.nextUserRoleId + 1 }
    | some i => { db with userRoles := dictSet db.userRoles i obj }
  else db

/-- `InMemoryDB.commit` is `pass`: in-memory changes are applied at `add` time. -/
def InMemoryDB.commit (db : InMemoryDB) : InMemoryDB := db

/-- A where-criterion as the two emulation layers understand it.  The source
recognises exactly two SQLAlchemy shapes: a `BinaryExpression`
(`left.key`, `right.value` — an equality test) and a `UnaryExpression` with an
`element.key` (a NOT / `ne True` test).  Every other shape falls through both
branches (any exception during its inspection is caught and ignored). -/
inductive Criterion where
  | binEq (field : String) (value : Value)
  | unaryNot (field : String)
  | unsupported
deriving DecidableEq

/-- Does one criterion exclude the object, per the in-memory filter loop
(inmemory.py lines 365-395): a NOT criterion excludes when the attribute exists
and is truthy; an equality criterion excludes when the attribute exists and
differs from the bound value; an absent attribute or an unsupported criterion
never excludes. -/
def inMemCriterionExcludes (o : Obj) : Criterion → Bool
  | .unaryNot f =>
      match getattrD o f with
      | some v => v.truthy
      | none => false
  | .binEq f v =>
      match getattrD o f with
      | some w => w != v
      | none => false
  | .unsupported => false

/-- The in-memory filter keeps an object when no criterion excludes it
(the source loop breaks at the first excluding criterion). -/
def inMemMatches (o : Obj) (cs : List Criterion) : Bool :=
  cs.all (fun c => !(inMemCriterionExcludes o c))

/-- Which storage dict `InMemoryDB.execute` reads for a queried entity class
(inmemory.py lines 345-358); any other entity yields an empty result. -/
def InMemoryDB.collectionFor (db : InMemoryDB) (entityName : String) : List Obj :=
  if entityName = "User" then dictValues db.users
  else if entityName = "OTP" then dictValues db.otps
  else if entityName = "RefreshToken" then dictValues db.refreshTokens
  else if entityName = "Role" then dictValues db.roles
  else if entityName = "Permission" then dictValues db.permissions
  else if entityName = "UserRole" then dictValues db.userRoles
  else []

/-- `InMemoryDB.execute` for a select on one entity class with a list of
where-criteria (inmemory.py lines 319-405): resolve the collection, apply the
filter loop, return the surviving objects in insertion order.  (When the
criteria list is empty the source skips the filter, which equals filtering
with a vacuous predicate.) -/
def InMemoryDB.execute (db : InMemoryDB) (entityName : String)
    (cs : List Criterion) : List Obj :=
  (db.collectionFor entityName).filter (fun o => inMemMatches o cs)

/-- `InMemoryDB.create_api` (inmemory.py lines 113-156): raises `ValueError`
when an already-stored API has the same name and version, otherwise stores a
new API object under the next API id and bumps the counter. -/
def InMemoryDB.create_api (db : InMemoryDB) (payloadName payloadVersion : Value)
    (rest : List (String × Value)) : Except String InMemoryDB :=
  if db.apis.any (fun p =>
        getattrD p.2 "name" == some payloadName
          && getattrD p.2 "version" == some payloadVersion) then
    .error "API with same name and version already exists"
  else
    let api : Obj :=
      { typeName := "API", id := some db.nextApiId
        fields := ("name", payloadName) :: ("version", payloadVersion) :: rest }
    .ok { db with apis := db.apis ++ [(db.nextApiId, api)]
                  nextApiId := db.nextApiId + 1 }

/-- A SQLite cell value: `NULL`, an integer, or text (the adapter binds Python
`None` to `NULL`, booleans as 0/1, ints as ints, strings as text). -/
inductive SQLValue where
  | sqlNull
  | sqlInt (n : Int)
  | sqlText (s : String)
deriving DecidableEq

/-- `bool_to_int(value, default)` from `SQLiteDB._insert_or_update_object`
(sqlite_db.py lines 498-499): `int(value if value is not None else default)`.
`None` falls back to the default, bools and ints convert by `int()`.
A string argument would make Python's `int()` parse it or raise; no write path
of the claims carries a string here, so it is left undefined (`none`). -/
def bool_to_int : Value → Bool → Option Int
  | .vNone, dflt => some (if dflt then 1 else 0)
  | .vBool b, _ => some (if b then 1 else 0)
  | .vInt n, _ => some n
  | .vStr _, _ => none

/-- The `revoked` column value the refresh-token INSERT writes for an object
(sqlite_db.py line 632): `bool_to_int(getattr(obj, 'revoked', None), False)` —
an absent attribute reads as `None` and the default is `False`. -/
def refreshTokenInsertRevoked (o : Obj) : Option Int :=
  bool_to_int (match getattrD o "revoked" with | some v => v | none => .vNone) false

/-- SQL `revoked = 0` on a stored integer column value: true exactly for a
stored 0.  A `NULL` cell compares as unknown, so the WHERE clause excludes the
row; `none` stands for a row whose write would not have produced an integer. -/
def sqlEqZero : Option Int → Bool
  | some n => n == 0
  | none => false

/-- The WHERE fragments `SQLiteDB.execute` builds from the criteria
(sqlite_db.py lines 861-883): a NOT criterion becomes `field = 0`, an equality
criterion becomes `field = ?` with the value as bound parameter, and any other
shape is skipped (the `except` logs and drops it). -/
inductive WherePart where
  | eqZero (field : String)
  | eqParam (field : String) (value : Value)
deriving DecidableEq

/-- Build the WHERE fragment list from the criteria, in order. -/
def wherePartsOf : List Criterion → List WherePart
  | [] => []
  | .unaryNot f :: cs => .eqZero f :: wherePartsOf cs
  | .binEq f v :: cs => .eqParam f v :: wherePartsOf cs
  | .unsupported :: cs => wherePartsOf cs

/-- Contents of the SQLite file as the adapter's own statements see it:
one table per entity kind, each row an id plus its remaining columns. -/
structure SQLiteState where
  users : List (Nat × List (String × SQLValue))
  refreshTokens : List (Nat × List (String × SQLValue))
  otps : List (Nat × List (String × SQLValue))
  apis : List (Nat × List (String × SQLValue))
  roles : List (Nat × List (String × SQLValue))
  permissions : List (Nat × List (String × SQLValue))
  userRoles : List (Nat × List (String × SQLValue))
  connectors : List (Nat × List (String × SQLValue))
  secrets : List (Nat × List (String × SQLValue))
deriving DecidableEq

/-- `SQLiteDB.delete` (sqlite_db.py lines 796-816).  An object without an id is
ignored.  Otherwise the table is chosen by attribute shape, in source order:
name+version → apis, hashed_password → users, token → refresh_tokens,
otp_hash → otps; an object matching none of these falls through every branch,
so only the trailing `commit()` runs and no table changes. -/
def SQLiteDB.delete (st : SQLiteState) (obj : Obj) : SQLiteState :=
  match obj.id with
  | none => st
  | some i =>
    if hasattrB obj "name" && hasattrB obj "version" then
      { st with apis := st.apis.filter (fun r => r.1 != i) }
    else if hasattrB obj "hashed_password" then
      { st with users := st.users.filter (fun r => r.1 != i) }
    else if hasattrB obj "token" then
      { st with refreshTokens := st.refreshTokens.filter (fun r => r.1 != i) }
    else if hasattrB obj "otp_hash" then
      { st with otps := st.otps.filter (fun r => r.1 != i) }
    else st

/-- The three storage tiers. -/
inductive Tier where
  | primary
  | secondary
  | tertiary
deriving DecidableEq

/-- Health statuses reported by `DatabaseManager.health_check`. -/
inductive HealthStatus where
  | healthy
  | degraded
  | unhealthy
deriving DecidableEq

/-- The environment an `initialize` call runs against: whether the primary
(PostgreSQL) attempt would return `True`, whether the secondary (SQLite)
attempt would return `True`, and how long `_try_initialize_databases` would
take to finish (arbitrarily large when an attempt would hang). -/
structure InitEnv where
  primaryOk : Bool
  secondaryOk : Bool
  tryDuration : Nat
deriving DecidableEq

/-- Mutable state of the `DatabaseManager` singleton: the two tier flags, the
SQLite adapter slot (`some c` when `self.sqlite_db` is set, with `c` recording
whether its `_db` connection is open), the in-memory adapter slot with its
contents, and whether the async engine is set. -/
structure MgrState where
  isUsingPrimary : Bool
  isUsingSqlite : Bool
  sqliteDb : Option Bool
  inmemoryDb : Option InMemoryDB
  engine : Bool
deriving DecidableEq

/-- `DatabaseManager.__init__`: no engine, no adapters, both flags false. -/
def MgrState.init : MgrState :=
  { isUsingPrimary := false, isUsingSqlite := false
    sqliteDb := none, inmemoryDb := none, engine := false }

/-- Which tier is active, as `get_connection_info`/`get_session` decide it:
primary when `is_using_primary`, else sqlite when `is_using_sqlite`, else
in-memory. -/
def MgrState.activeTier (st : MgrState) : Tier :=
  if st.isUsingPrimary then .primary
  else if st.isUsingSqlite then .secondary
  else .tertiary

/-- The active tier is usable: its adapter object actually exists (engine for
primary, a connected SQLiteDB for secondary, an InMemoryDB for tertiary). -/
def MgrState.tierUsable (st : MgrState) : Bool :=
  match st.activeTier with
  | .primary => st.engine
  | .secondary => st.sqliteDb == some true
  | .tertiary => st.inmemoryDb.isSome

/-- `DatabaseManager._initialize_fallback_database` (db_manager.py lines
245-257): constructs a fresh, empty `InMemoryDB` and clears both tier flags.
Its `except` clause would raise `DatabaseConnectionError`, but the guarded
body — plain attribute assignments and `InMemoryDB()` construction — cannot
fail, so the function is total. -/
def DatabaseManager.initializeFallback (st : MgrState) : MgrState :=
  { st with inmemoryDb := some InMemoryDB.init
            isUsingPrimary := false, isUsingSqlite := false }

/-- `DatabaseManager._initialize_primary_database` (db_manager.py lines
135-202): on success the engine and session factory are created and
`is_using_primary` is set (note `is_using_sqlite` is not touched); on any
failure the engine is cleaned up and `False` is returned, every exception
being caught inside the method. -/
def DatabaseManager.initializePrimary (env : InitEnv) (st : MgrState) :
    MgrState × Bool :=
  if env.primaryOk then
    ({ st with engine := true, isUsingPrimary := true }, true)
  else
    ({ st with engine := false }, false)

/-- `DatabaseManager._initialize_sqlite_database` (db_manager.py lines
204-243): on success a new `SQLiteDB` is constructed and connected,
`is_using_sqlite` is set and `is_using_primary` cleared; on timeout or error
the partially built adapter is discarded (`self.sqlite_db = None`) and
`is_using_sqlite` cleared, returning `False` — again every exception is
caught inside the method. -/
def DatabaseManager.initializeSqlite (env : InitEnv) (st : MgrState) :
    MgrState × Bool :=
  if env.secondaryOk then
    ({ st with sqliteDb := some true, isUsingSqlite := true
               isUsingPrimary := false }, true)
  else
    ({ st with sqliteDb := none, isUsingSqlite := false }, false)

/-- `DatabaseManager._try_initialize_databases` (db_manager.py lines 112-133):
primary first, then SQLite, then the in-memory fallback.  Total, because each
attempt catches its own exceptions and the fallback cannot fail. -/
def DatabaseManager.tryInitializeDatabases (env : InitEnv) (st : MgrState) :
    MgrState :=
  let (st1, ok1) := DatabaseManager.initializePrimary env st
  if ok1 then st1
  else
    let (st2, ok2) := DatabaseManager.initializeSqlite env st1
    if ok2 then st2
    else DatabaseManager.initializeFallback st2

/-- Result of an `initialize` call: the manager state it leaves behind and how
long the call took.  There is no exception outcome: the body wraps
`_try_initialize_databases` in `asyncio.wait_for` and catches both
`TimeoutError` and `Exception`, in each case running the (total) in-memory
fallback, so the call always returns normally. -/
structure InitResult where
  state : MgrState
  duration : Nat
deriving DecidableEq

/-- `DatabaseManager.initializeTiers` (db_manager.py lines 82-110): run
`_try_initialize_databases` under the total timeout; when the timeout elapses
first, abandon the attempt and activate the in-memory fallback.  The fallback
itself is instantaneous (pure in-process construction), so a timed-out call
finishes at the timeout bound. -/
def DatabaseManager.initializeTiers (env : InitEnv) (timeout : Nat) (st : MgrState) :
    InitResult :=
  if env.tryDuration ≤ timeout then
    { state := DatabaseManager.tryInitializeDatabases env st
      duration := env.tryDuration }
  else
    { state := DatabaseManager.initializeFallback st, duration := timeout }

/-- `DatabaseManager.health_check` (db_manager.py lines 328-381).  `probeOk`
is the result of the primary round-trip probe (`_test_connection`, which
itself catches every exception and returns a bool).  In the SQLite branch the
guarded expression `self.sqlite_db and self.sqlite_db._db` is two attribute
reads that always exist once the objects are constructed, so the
`except → "unhealthy"` clause there is unreachable; tertiary always reports
degraded. -/
def DatabaseManager.healthCheck (probeOk : Bool) (st : MgrState) :
    HealthStatus :=
  if st.isUsingPrimary then
    if probeOk then .healthy else .degraded
  else if st.isUsingSqlite then
    match st.sqliteDb with
    | some true => .healthy
    | _ => .degraded
  else .degraded

/-! Concrete objects used to exercise the model. -/

/-- A fresh `User` model object (class name `User`), not yet given an id. -/
def userObjA : Obj :=
  { typeName := "User", id := none
    fields := [("email", .vStr "a@b.c"), ("hashed_password", .vStr "h")] }

/-- A stored-shape `User` object carrying no `email` attribute. -/
def userNoEmail : Obj :=
  { typeName := "User", id := none, fields := [("hashed_password", .vStr "h")] }

/-- A fresh `UserRole` model object (class name `UserRole`), not yet given an id. -/
def userRoleObj : Obj :=
  { typeName := "UserRole", id := none
    fields := [("user_id", .vInt 1), ("role_id", .vInt 2)] }

/-- A `Role` object: name and description but no version, password, token or
otp hash. -/
def roleObj : Obj :=
  { typeName := "Role", id := some 1
    fields := [("name", .vStr "admin"), ("description", .vStr "d")] }

/-- Refresh tokens with `revoked` true, false, `None`, and absent. -/
def tokTrue : Obj :=
  { typeName := "RefreshToken", id := some 1
    fields := [("token", .vStr "a"), ("revoked", .vBool true)] }

/-- Refresh token with `revoked` false. -/
def tokFalse : Obj :=
  { typeName := "RefreshToken", id := some 2
    fields := [("token", .vStr "b"), ("revoked", .vBool false)] }

/-- Refresh token with `revoked` set to `None`. -/
def tokNone : Obj :=
  { typeName := "RefreshToken", id := some 3
    fields := [("token", .vStr "c"), ("revoked", .vNone)] }

/-- Refresh token with no `revoked` attribute at all. -/
def tokAbsent : Obj :=
  { typeName := "RefreshToken", id := some 4
    fields := [("token", .vStr "d")] }

/-- An in-memory db already holding one API named `svc` version `v1`. -/
def dbWithApi : InMemoryDB :=
  { InMemoryDB.init with
      apis := [(1, { typeName := "API", id := some 1
                     fields := [("name", .vStr "svc"), ("version", .vStr "v1")] })]
      nextApiId := 2 }

/-- An environment where both the primary and the secondary attempt fail. -/
def envBothFail : InitEnv := { primaryOk := false, secondaryOk := false, tryDuration := 1 }

/-- An environment whose initialization attempt would take 1000 time units. -/
def envSlow : InitEnv := { primaryOk := true, secondaryOk := true, tryDuration := 1000 }

/-- Manager state after one `initialize` under `envBothFail`: tertiary active. -/
def mgrAfterFirstInit : MgrState :=
  (DatabaseManager.initializeTiers envBothFail 15 MgrState.init).state

/-- The same manager after a session stored one user in the in-memory adapter. -/
def mgrAfterWrite : MgrState :=
  { mgrAfterFirstInit with inmemoryDb := some (InMemoryDB.init.add userObjA) }

/-- A SQLite file state with one user row and one role row. -/
def st10 : SQLiteState :=
  { users := [(1, [("email", .sqlText "a")])], refreshTokens := [], otps := []
    apis := [], roles := [(1, [("name", .sqlText "admin")])], permissions := []
    userRoles := [], connectors := [], secrets := [] }

/-! The claims. -/

/-- C1: the cross-tier contract parity fails on the Tertiary tier for the
`UserRole` entity kind.  Adding a fresh `UserRole` (no id) and committing, a
query for `UserRole` with no predicates returns zero entities instead of the
claimed one: `add` tests `'User' in type_name` first, which matches the class
name `UserRole`, so the object lands in the users dict and the dedicated
`UserRole` branch of `add` is dead code — the same query for `User` returns
the misrouted object. -/
theorem C1_userRole_add_is_misrouted :
    ((InMemoryDB.init.add userRoleObj).commit.execute "UserRole" []).length = 0
    ∧ ((InMemoryDB.init.add userRoleObj).commit.execute "User" []).length = 1
    ∧ ((InMemoryDB.init.add userRoleObj).commit.userRoles).length = 0 := by
  decide

/-- C2: `initialize` never raises — it is a total function because every
adapter attempt catches its own exceptions and the in-memory fallback cannot
fail — and it always leaves the manager on a usable tier; when both the
Primary and the Secondary attempts fail, the activated tier is the in-memory
Tertiary backstop. -/
theorem C2_initialize_lands_on_usable_tier (env : InitEnv) (T : Nat)
    (st : MgrState) :
    (DatabaseManager.initializeTiers env T st).state.tierUsable = true
    ∧ (env.primaryOk = false → env.secondaryOk = false →
        (DatabaseManager.initializeTiers env T st).state.activeTier = Tier.tertiary
        ∧ (DatabaseManager.initializeTiers env T st).state.inmemoryDb.isSome = true) := by
  cases hP : env.primaryOk <;> cases hS : env.secondaryOk <;>
    by_cases hT : env.tryDuration ≤ T <;>
      simp [DatabaseManager.initializeTiers, hT, hP, hS,
            DatabaseManager.tryInitializeDatabases,
            DatabaseManager.initializePrimary, DatabaseManager.initializeSqlite,
            DatabaseManager.initializeFallback, MgrState.tierUsable,
            MgrState.activeTier]

/-- Witness for C2 at a concrete input: both adapters fail, timeout 15. -/
theorem C2_initialize_lands_on_usable_tier_witness :
    (DatabaseManager.initializeTiers envBothFail 15 MgrState.init).state.tierUsable = true
    ∧ (DatabaseManager.initializeTiers envBothFail 15 MgrState.init).state.activeTier
        = Tier.tertiary :=
  ⟨(C2_initialize_lands_on_usable_tier envBothFail 15 MgrState.init).1,
   ((C2_initialize_lands_on_usable_tier envBothFail 15 MgrState.init).2 rfl rfl).1⟩

/-- C3: `initialize(timeout=T)` finishes within the timeout bound (the
in-memory fallback taken on expiry is instantaneous in-process construction,
so ε = 0 in the model), whatever the duration of the wrapped attempt — even
one that would hang forever; and when the attempt overruns the timeout the
partially started adapters are abandoned, the Tertiary tier is activated with
a fresh in-memory store, and the call still returns normally. -/
theorem C3_initialize_timeout_bound (env : InitEnv) (T : Nat) (st : MgrState) :
    (DatabaseManager.initializeTiers env T st).duration ≤ T
    ∧ (T < env.tryDuration →
        (DatabaseManager.initializeTiers env T st).state.activeTier = Tier.tertiary
        ∧ (DatabaseManager.initializeTiers env T st).state.inmemoryDb
            = some InMemoryDB.init) := by
  by_cases hT : env.tryDuration ≤ T <;>
    simp [DatabaseManager.initializeTiers, hT, DatabaseManager.initializeFallback,
          MgrState.activeTier]

/-- Witness for C3 at a concrete input: the attempt would take 1000 units,
the total timeout is 15. -/
theorem C3_initialize_timeout_bound_witness :
    (DatabaseManager.initializeTiers envSlow 15 MgrState.init).duration ≤ 15
    ∧ (DatabaseManager.initializeTiers envSlow 15 MgrState.init).state.activeTier
        = Tier.tertiary :=
  ⟨(C3_initialize_timeout_bound envSlow 15 MgrState.init).1,
   ((C3_initialize_timeout_bound envSlow 15 MgrState.init).2 (by decide)).1⟩

/-- C4 counterexample: the claim says an entity lacking the predicate's field
is excluded from the results.  On the Tertiary adapter a stored user with no
`email` attribute queried with the equality predicate `email = "x"` is
returned (result length 1), because the filter loop only compares when
`hasattr` holds and otherwise leaves the match flag true. -/
theorem C4_absent_field_counterexample :
    ((InMemoryDB.init.add userNoEmail).execute "User"
        [Criterion.binEq "email" (.vStr "x")]).length = 1 := by
  decide

/-- C4 amended: when the field named by a predicate is absent on an entity,
the Tertiary emulation layer skips that predicate for that entity — the
entity is treated as matching it, never excluded by it, and no exception is
raised (the evaluation is total). -/
theorem C4_absent_field_skips_predicate (o : Obj) (f : String) (v : Value)
    (cs : List Criterion) (h : hasattrB o f = false) :
    inMemMatches o (Criterion.binEq f v :: cs) = inMemMatches o cs
    ∧ inMemMatches o (Criterion.unaryNot f :: cs) = inMemMatches o cs := by
  have hnone : getattrD o f = none := by
    unfold hasattrB at h
    unfold getattrD
    cases hx : o.fields.lookup f with
    | none => rfl
    | some _ => rw [hx] at h; simp at h
  constructor <;> simp [inMemMatches, inMemCriterionExcludes, hnone]

/-- Witness for C4 amended at a concrete input. -/
theorem C4_absent_field_skips_predicate_witness :
    hasattrB userNoEmail "email" = false
    ∧ inMemMatches userNoEmail [Criterion.binEq "email" (.vStr "x")]
        = inMemMatches userNoEmail [] :=
  ⟨by decide,
   (C4_absent_field_skips_predicate userNoEmail "email" (.vStr "x") []
      (by decide)).1⟩

/-- C5 counterexample: the claim says a second insert with a duplicate
logical key yields an integrity violation on every tier and never leaves two
records.  On the Tertiary tier, adding the same user (same email) twice
through the uniform `add` succeeds silently and stores two records with that
email under ids 1 and 2. -/
theorem C5_duplicate_user_counterexample :
    ((InMemoryDB.init.add userObjA).add userObjA).users.length = 2
    ∧ (((InMemoryDB.init.add userObjA).add userObjA).users.map
        (fun p => getattrD p.2 "email"))
      = [some (.vStr "a@b.c"), some (.vStr "a@b.c")] := by
  decide

/-- C5 amended: uniqueness is enforced only where a check exists.  On the
Tertiary tier the dedicated `create_api` path rejects a duplicate API
name+version pair with an error and leaves the store unchanged (the Secondary
tier delegates the analogous checks to its UNIQUE schema constraints), while
the uniform `add` path performs no uniqueness check and silently stores the
duplicate (as the counterexample shows). -/
theorem C5_create_api_rejects_duplicate (db : InMemoryDB) (n v : Value)
    (rest : List (String × Value))
    (h : db.apis.any (fun p =>
          getattrD p.2 "name" == some n
            && getattrD p.2 "version" == some v) = true) :
    db.create_api n v rest
      = Except.error "API with same name and version already exists" := by
  unfold InMemoryDB.create_api
  simp [h]

/-- Witness for C5 amended at a concrete input: the store already holds
API `svc`/`v1`. -/
theorem C5_create_api_rejects_duplicate_witness :
    dbWithApi.apis.any (fun p =>
        getattrD p.2 "name" == some (.vStr "svc")
          && getattrD p.2 "version" == some (.vStr "v1")) = true
    ∧ dbWithApi.create_api (.vStr "svc") (.vStr "v1") []
        = Except.error "API with same name and version already exists" :=
  ⟨by decide,
   C5_create_api_rejects_duplicate dbWithApi (.vStr "svc") (.vStr "v1") []
     (by decide)⟩

/-- C6 counterexample: the claim says a query with an unsupported predicate
shape surfaces an error.  On the Tertiary adapter an unsupported criterion
over a store holding one user returns exactly the result of the same query
without the predicate — the stored user — and no error: the criterion falls
through both recognised shapes (and any inspection exception is caught and
ignored). -/
theorem C6_unsupported_counterexample :
    ((InMemoryDB.init.add userObjA).execute "User" [Criterion.unsupported])
      = ((InMemoryDB.init.add userObjA).execute "User" [])
    ∧ ((InMemoryDB.init.add userObjA).execute "User"
        [Criterion.unsupported]).length = 1 := by
  decide

/-- C6 amended: on both emulation layers an unsupported predicate shape is
silently skipped, not surfaced as an error: the Tertiary `execute` returns
exactly what it returns without that criterion, and the Secondary `execute`
builds the identical WHERE fragment list (hence the identical SQL query and
results) with or without it. -/
theorem C6_unsupported_silently_skipped (db : InMemoryDB) (e : String)
    (cs : List Criterion) :
    db.execute e (Criterion.unsupported :: cs) = db.execute e cs
    ∧ wherePartsOf (Criterion.unsupported :: cs) = wherePartsOf cs := by
  constructor
  · simp [InMemoryDB.execute, inMemMatches, inMemCriterionExcludes]
  · rfl

/-- C7 counterexample: the claim says a second `initialize` on an
already-initialized manager is a no-op leaving the adapter state unchanged.
Concretely: after `initialize` lands on the Tertiary tier and a session
stores one user, calling `initialize` again (same environment, both adapters
still failing) replaces the in-memory adapter with a fresh empty instance —
the manager state changes and the stored user is lost. -/
theorem C7_second_initialize_not_noop :
    (DatabaseManager.initializeTiers envBothFail 15 mgrAfterWrite).state
      ≠ mgrAfterWrite := by
  decide

/-- C7 amended: `initialize` has no already-initialized guard; a second call
re-runs the whole tier selection, so only the *selected tier* is stable under
repetition (with an unchanged environment), while the adapter instances are
constructed afresh — in particular, when both upstream tiers fail the second
call installs a brand-new empty in-memory store regardless of what the first
one accumulated. -/
theorem C7_second_initialize_same_tier_fresh_adapter (env : InitEnv) (T : Nat)
    (st : MgrState) :
    (DatabaseManager.initializeTiers env T
        (DatabaseManager.initializeTiers env T st).state).state.activeTier
      = (DatabaseManager.initializeTiers env T st).state.activeTier
    ∧ (env.primaryOk = false → env.secondaryOk = false →
        (DatabaseManager.initializeTiers env T
          (DatabaseManager.initializeTiers env T st).state).state.inmemoryDb
          = some InMemoryDB.init) := by
  cases hP : env.primaryOk <;> cases hS : env.secondaryOk <;>
    by_cases hT : env.tryDuration ≤ T <;>
      simp [DatabaseManager.initializeTiers, hT, hP, hS,
            DatabaseManager.tryInitializeDatabases,
            DatabaseManager.initializePrimary, DatabaseManager.initializeSqlite,
            DatabaseManager.initializeFallback, MgrState.activeTier]

/-- Witness for C7 amended at a concrete input. -/
theorem C7_second_initialize_same_tier_fresh_adapter_witness :
    (DatabaseManager.initializeTiers envBothFail 15
        (DatabaseManager.initializeTiers envBothFail 15 MgrState.init).state).state.activeTier
      = (DatabaseManager.initializeTiers envBothFail 15 MgrState.init).state.activeTier
    ∧ (DatabaseManager.initializeTiers envBothFail 15
        (DatabaseManager.initializeTiers envBothFail 15 MgrState.init).state).state.inmemoryDb
      = some InMemoryDB.init :=
  ⟨(C7_second_initialize_same_tier_fresh_adapter envBothFail 15 MgrState.init).1,
   (C7_second_initialize_same_tier_fresh_adapter envBothFail 15 MgrState.init).2
     rfl rfl⟩

/-- C8: over any list of refresh tokens whose `revoked` attribute the
Secondary insert path accepts (`None`, a bool, an int, or absent — the values
for which `bool_to_int` is defined), the Tertiary NOT-filter and the
Secondary `revoked = 0` WHERE clause over the column values written by that
insert keep exactly the same tokens: those whose `revoked` does not hold
(false, 0, `None`, or absent). -/
theorem C8_ne_revoked_parity (es : List Obj)
    (h : ∀ o ∈ es, (refreshTokenInsertRevoked o).isSome = true) :
    es.filter (fun o => inMemMatches o [Criterion.unaryNot "revoked"])
      = es.filter (fun o => sqlEqZero (refreshTokenInsertRevoked o)) := by
  apply List.filter_congr
  intro o ho
  have hs := h o ho
  cases hg : getattrD o "revoked" with
  | none =>
      simp [inMemMatches, inMemCriterionExcludes, hg,
            refreshTokenInsertRevoked, bool_to_int, sqlEqZero]
  | some v =>
      cases v with
      | vNone =>
          simp [inMemMatches, inMemCriterionExcludes, hg, Value.truthy,
                refreshTokenInsertRevoked, bool_to_int, sqlEqZero]
      | vBool b =>
          cases b <;>
            simp [inMemMatches, inMemCriterionExcludes, hg, Value.truthy,
                  refreshTokenInsertRevoked, bool_to_int, sqlEqZero]
      | vInt n =>
          simp [inMemMatches, inMemCriterionExcludes, hg, Value.truthy,
                refreshTokenInsertRevoked, bool_to_int, sqlEqZero, bne]
      | vStr s =>
          rw [refreshTokenInsertRevoked, hg] at hs
          simp [bool_to_int] at hs

/-- Witness for C8 at a concrete input: tokens with `revoked` true, false,
`None`, and absent — both adapters keep exactly the last three. -/
theorem C8_ne_revoked_parity_witness :
    (∀ o ∈ [tokTrue, tokFalse, tokNone, tokAbsent],
        (refreshTokenInsertRevoked o).isSome = true)
    ∧ [tokTrue, tokFalse, tokNone, tokAbsent].filter
        (fun o => inMemMatches o [Criterion.unaryNot "revoked"])
      = [tokTrue, tokFalse, tokNone, tokAbsent].filter
        (fun o => sqlEqZero (refreshTokenInsertRevoked o)) :=
  ⟨by decide,
   C8_ne_revoked_parity [tokTrue, tokFalse, tokNone, tokAbsent] (by decide)⟩

/-- C9: whenever the active tier is not the primary one — i.e. it is the
Secondary (SQLite) or the Tertiary (in-memory) tier — `health_check` reports
healthy or degraded, never unhealthy: the SQLite branch's `except` clause
guards two attribute reads that always exist once the objects are
constructed, and the in-memory branch unconditionally reports degraded. -/
theorem C9_health_check_never_unhealthy (probeOk : Bool) (st : MgrState)
    (h : st.isUsingPrimary = false) :
    DatabaseManager.healthCheck probeOk st ≠ HealthStatus.unhealthy := by
  unfold DatabaseManager.healthCheck
  rw [h]
  by_cases hS : st.isUsingSqlite
  · simp only [hS, Bool.false_eq_true, if_false, if_true]
    cases st.sqliteDb with
    | none => simp
    | some c => cases c <;> simp
  · simp [hS]

/-- Witness for C9 at a concrete input: the tertiary state reached after a
failed initialization reports degraded, not unhealthy. -/
theorem C9_health_check_never_unhealthy_witness :
    MgrState.init.isUsingPrimary = false
    ∧ DatabaseManager.healthCheck true MgrState.init ≠ HealthStatus.unhealthy :=
  ⟨by decide, C9_health_check_never_unhealthy true MgrState.init (by decide)⟩

/-- C10: on the Secondary (SQLite) adapter, `delete` applied to an object
that has an id but is not shaped like an API (name+version), a User
(hashed_password), a RefreshToken (token), or an OTP (otp_hash) — e.g. a
Role, Permission, UserRole, Connector, or Secret — falls through every
dispatch branch, so no DELETE statement runs and every table is left exactly
as it was (only the trailing commit executes). -/
theorem C10_delete_unshaped_is_frame (st : SQLiteState) (obj : Obj) (i : Nat)
    (hid : obj.id = some i)
    (h1 : (hasattrB obj "name" && hasattrB obj "version") = false)
    (h2 : hasattrB obj "hashed_password" = false)
    (h3 : hasattrB obj "token" = false)
    (h4 : hasattrB obj "otp_hash" = false) :
    SQLiteDB.delete st obj = st := by
  unfold SQLiteDB.delete
  rw [hid]
  simp [h1, h2, h3, h4]

/-- Witness for C10 at a concrete input: deleting a Role object leaves a
populated SQLite state untouched. -/
theorem C10_delete_unshaped_is_frame_witness :
    roleObj.id = some 1
    ∧ (hasattrB roleObj "name" && hasattrB roleObj "version") = false
    ∧ SQLiteDB.delete st10 roleObj = st10 :=
  ⟨rfl, by decide,
   C10_delete_unshaped_is_frame st10 roleObj 1 rfl (by decide) (by decide)
     (by decide) (by decide)⟩

end CustomGateway
